import Mathlib

/-!
Shallow embedding of `oddt/scoring/functions/PLECscore.py`.

The module wires a PLEC fingerprint feature extractor and one of three
sklearn regressors into a `scorer` base class and manages training,
persistence and JSON parameter export.  The embedding below translates the
module's own control flow (construction, `gen_training_data`, `train`,
`gen_json`, `load`) into pure Lean functions; the external collaborators
(sklearn fitting, the base-class CSV loader, pickling) are abstracted at
the call boundary exactly where the source delegates to them.

Machine floats that only ever appear as configuration literals (`1e-4`,
`1e-1`) are represented as rationals; none of the claims depend on float
rounding.  Filesystem state is an association list from paths to JSON
documents; paths are plain strings built with the same formats the source
uses.
-/

namespace PLECEmbed

/-- Models `os.path.dirname(__file__)` for the module file: an opaque-to-the-code
directory string onto which further names are joined. -/
def moduleDir : String := "oddt/scoring/functions"

/-- Models `os.path.join(a, b)` for the non-absolute second components used here. -/
def pathJoinStr (a b : String) : String :=
  if a = "" then b else a ++ "/" ++ b

/-- Python values that occur as model attributes and JSON document entries in
this module: numbers, strings, (nested) lists of numbers, and numpy arrays.
The documents this module reads and writes hold nothing deeper. -/
inductive PyVal where
  | pyFloat (q : ℚ)
  | pyInt (n : Int)
  | pyStr (s : String)
  /-- a json list of plain numbers -/
  | pyListNum (xs : List ℚ)
  /-- a json list of lists of numbers -/
  | pyListList (xss : List (List ℚ))
  /-- a 1-d numpy array -/
  | ndarray (xs : List ℚ)
  /-- a python list of 1-d numpy arrays -/
  | pyListArr (xss : List (List ℚ))
deriving Repr, DecidableEq

/-- The Python exceptions the embedded code can raise, by raise site. -/
inductive Err where
  /-- `isinstance(x, np.array)` in `gen_json`: the second argument of
  `isinstance` must be a type and `np.array` is a builtin function. -/
  | typeErrorIsinstanceNpArray
  /-- `for attr_name in attributes` in `gen_json` when no branch assigned
  `attributes` (the random-forest model matches neither isinstance test). -/
  | unboundLocalAttributes
  /-- `os.path.join(None, name)` in `gen_json` when `home_dir` is still None. -/
  | typeErrorPathJoinNone
  /-- `v[0]` on an empty json list in `train`'s fast-path conversion. -/
  | indexErrorEmptyList
  /-- Failed Python attribute lookup. -/
  | attributeError (name : String)
deriving Repr, DecidableEq

/-- Constructor arguments of `sklearn.linear_model.SGDRegressor` as passed at
`PLECscore.__init__` (source lines 42-49). -/
structure SGDParams where
  fit_intercept : Bool
  loss : String
  penalty : String
  random_state : Nat
  verbose : Nat
  n_iter : Nat
  alpha : ℚ
  epsilon : ℚ
deriving Repr, DecidableEq

/-- Constructor arguments of `sklearn.neural_network.MLPRegressor` as passed at
`PLECscore.__init__` (source lines 51-55). -/
structure MLPParams where
  hidden_layer_sizes : List Nat
  batch_size : Nat
  random_state : Nat
  verbose : Nat
  solver : String
deriving Repr, DecidableEq

/-- Constructor arguments of `sklearn.ensemble.RandomForestRegressor` as passed
at `PLECscore.__init__` (source lines 57-61). -/
structure RFParams where
  n_estimators : Nat
  n_jobs : Int
  verbose : Nat
  oob_score : Bool
  random_state : Nat
deriving Repr, DecidableEq

/-- The regressor object selected by the version dispatch. -/
inductive Model where
  | sgd (p : SGDParams)
  | mlp (p : MLPParams)
  | rf (p : RFParams)
deriving Repr, DecidableEq

/-- The keyword arguments bound into `plec_func` by `functools` at source
lines 31-37. -/
structure PlecParams where
  depth_ligand : Nat
  depth_protein : Nat
  size : Nat
  count_bits : Bool
  sparse : Bool
  ignore_hoh : Bool
deriving Repr, DecidableEq

/-- The `universal_descriptor` object built at source lines 38-39: the feature
extractor wrapping `plec_func`. -/
structure UniversalDescriptor where
  plec : PlecParams
  protein : Option String
  shape : Nat
  sparse : Bool
deriving Repr, DecidableEq

/-- Source lines 31-37: bind the PLEC fingerprint function's keyword arguments. -/
def mkPlecFunc (depth_ligand depth_protein size : Nat) : PlecParams :=
  { depth_ligand := depth_ligand, depth_protein := depth_protein, size := size,
    count_bits := true, sparse := true, ignore_hoh := true }

/-- Source lines 38-39: build the feature extractor around `plec_func`. -/
def mkDescriptors (plec : PlecParams) (protein : Option String) (size : Nat) :
    UniversalDescriptor :=
  { plec := plec, protein := protein, shape := size, sparse := true }

/-- Source lines 41-64: the version dispatch of `__init__`.  An unknown version
raises `ValueError('The version "%s" is not supported by PLECscore' % version)`. -/
def mkModel (version : String) : Except String Model :=
  if version = "linear" then
    .ok (.sgd { fit_intercept := false, loss := "huber", penalty := "elasticnet",
                random_state := 0, verbose := 0, n_iter := 100,
                alpha := 1/10000, epsilon := 1/10 })
  else if version = "nn" then
    .ok (.mlp { hidden_layer_sizes := [200, 200, 200], batch_size := 10,
                random_state := 0, verbose := 0, solver := "lbfgs" })
  else if version = "rf" then
    .ok (.rf { n_estimators := 100, n_jobs := -1, verbose := 0,
               oob_score := true, random_state := 0 })
  else
    .error ("The version \"" ++ version ++ "\" is not supported by PLECscore")

/-- The six configuration fields assigned at source lines 24-29. -/
structure Config where
  protein : Option String
  n_jobs : Int
  version : String
  depth_protein : Nat
  depth_ligand : Nat
  size : Nat
deriving Repr, DecidableEq

/-- Source lines 67-68: `score_title='PLEC%s_p%i_l%i' % (version, depth_protein,
depth_ligand)`. -/
def score_title (version : String) (depth_protein depth_ligand : Nat) : String :=
  "PLEC" ++ version ++ "_p" ++ toString depth_protein ++ "_l" ++ toString depth_ligand

/-- A fully constructed `PLECscore` instance.  `modelAttrs` holds the fitted
attributes of the regressor object (set by `fit` or by `setattr` in `train`'s
fast path), kept apart from the constructor arguments in `model`. -/
structure State where
  config : Config
  descriptors : UniversalDescriptor
  model : Model
  title : String
  modelAttrs : List (String × PyVal)
deriving Repr, DecidableEq

instance {ε : Type u} {α : Type v} [DecidableEq ε] [DecidableEq α] :
    DecidableEq (Except ε α) := fun x y =>
  match x, y with
  | .ok a, .ok b =>
      if h : a = b then isTrue (h ▸ rfl) else isFalse (fun hc => h (Except.ok.inj hc))
  | .error a, .error b =>
      if h : a = b then isTrue (h ▸ rfl) else isFalse (fun hc => h (Except.error.inj hc))
  | .ok _, .error _ => isFalse (fun hc => Except.noConfusion hc)
  | .error _, .ok _ => isFalse (fun hc => Except.noConfusion hc)

/-- What `__init__` has constructed by the time it returns or raises:
the feature extractor is built at lines 31-39, before the version dispatch
at lines 41-64, so it exists even when the dispatch raises. -/
structure InitTrace where
  descriptors : Option UniversalDescriptor
  modelResult : Except String Model
deriving Repr, DecidableEq

/-- The construction order of `__init__` (source lines 22-68): field
assignments, then `plec_func`, then `descriptors`, then the version dispatch. -/
def initTrace (protein : Option String) (version : String)
    (depth_protein depth_ligand size : Nat) : InitTrace :=
  let plec_func := mkPlecFunc depth_ligand depth_protein size
  let descriptors := mkDescriptors plec_func protein size
  { descriptors := some descriptors, modelResult := mkModel version }

/-- `PLECscore.__init__` (source lines 22-68): returns the constructed instance,
or the `ValueError` message when the version dispatch raises. -/
def init (protein : Option String) (n_jobs : Int) (version : String)
    (depth_protein depth_ligand size : Nat) : Except String State :=
  let plec_func := mkPlecFunc depth_ligand depth_protein size
  let descriptors := mkDescriptors plec_func protein size
  match mkModel version with
  | .error e => .error e
  | .ok model =>
      .ok { config := { protein := protein, n_jobs := n_jobs, version := version,
                        depth_protein := depth_protein, depth_ligand := depth_ligand,
                        size := size },
            descriptors := descriptors, model := model,
            title := score_title version depth_protein depth_ligand,
            modelAttrs := [] }

/-- A JSON document: the flat attribute-name-to-value mapping this module
reads and writes. -/
abbrev JsonDoc := List (String × PyVal)

/-- The filesystem as seen by this module's JSON handling: paths to documents. -/
abbrev Fs := List (String × JsonDoc)

/-- Models `os.path.isfile` restricted to the JSON files the module consults. -/
def isfile (fs : Fs) (p : String) : Bool :=
  (fs.lookup p).isSome

/-- `'plecscore_%s_p%i_l%i_s%i_pdbbind%i.json' % (version, depth_protein,
depth_ligand, size, pdbbind_version)` (source lines 107-109 and 122-125). -/
def jsonName (version : String) (depth_protein depth_ligand size : Nat)
    (pdbbind_version : Int) : String :=
  "plecscore_" ++ version ++ "_p" ++ toString depth_protein ++ "_l" ++
    toString depth_ligand ++ "_s" ++ toString size ++ "_pdbbind" ++
    toString pdbbind_version ++ ".json"

/-- `'PLEC%s_p%i_l%i_pdbbind%i_s%i.pickle' % (version, depth_protein,
depth_ligand, pdbbind_version, size)` (source lines 173-175 and 183-185). -/
def pickleName (version : String) (depth_protein depth_ligand : Nat)
    (pdbbind_version : Int) (size : Nat) : String :=
  "PLEC" ++ version ++ "_p" ++ toString depth_protein ++ "_l" ++
    toString depth_ligand ++ "_pdbbind" ++ toString pdbbind_version ++
    "_s" ++ toString size ++ ".pickle"

/-- `'plecscore_descs_p%i_l%i_s%i.csv' % (depth_protein, depth_ligand, size)`
(source lines 76-77 and 119-120). -/
def descName (depth_protein depth_ligand size : Nat) : String :=
  "plecscore_descs_p" ++ toString depth_protein ++ "_l" ++ toString depth_ligand ++
    "_s" ++ toString size ++ ".csv"

/-- `if not home_dir: home_dir = path_join(dirname(__file__), 'PLECscore')`
(source lines 117-118); Python truthiness makes both None and the empty
string fall back to the module-adjacent default. -/
def resolveHomeDir (home_dir : Option String) : String :=
  match home_dir with
  | none => pathJoinStr moduleDir "PLECscore"
  | some h => if h = "" then pathJoinStr moduleDir "PLECscore" else h

/-- The deterministic JSON path `train` computes at source lines 122-125. -/
def trainJsonPath (s : State) (home_dir : Option String) (pdbbind_version : Int) :
    String :=
  pathJoinStr (resolveHomeDir home_dir)
    (jsonName s.config.version s.config.depth_protein s.config.depth_ligand
      s.config.size pdbbind_version)

/-- Modelled from the spec: `scorer.save` lives in the scoring base module,
which is not among the sources here; per the spec the trained adapter is
persisted "at `explicit_artifact_path` if given, else at a deterministic
default filename" and the operation "Returns the artifact path". -/
def save (path : String) : String := path

/-- Fast-path conversion of one json value (source lines 136-141):
`isinstance(v, list)`, then `isinstance(v[0], list)` decides between
`[np.array(x) for x in v]` and `np.array(v)`; `v[0]` on an empty list raises
IndexError. -/
def loadJsonValue : PyVal → Except Err PyVal
  | .pyListNum [] => .error .indexErrorEmptyList
  | .pyListList [] => .error .indexErrorEmptyList
  | .pyListNum xs => .ok (.ndarray xs)
  | .pyListList xss => .ok (.pyListArr xss)
  | v => .ok v

/-- `setattr(self.model, k, v)`: bind or rebind one fitted attribute. -/
def setattr (attrs : JsonDoc) (k : String) (v : PyVal) : JsonDoc :=
  match attrs with
  | [] => [(k, v)]
  | (k0, v0) :: rest => if k0 = k then (k, v) :: rest else (k0, v0) :: setattr rest k v

/-- The fast-path `for k, v in json_data.items()` loop (source lines 136-142);
when a conversion raises, the attributes already set remain set. -/
def applyJsonDoc : JsonDoc → JsonDoc → JsonDoc × Option Err
  | acc, [] => (acc, none)
  | acc, (k, v) :: rest =>
      match loadJsonValue v with
      | .error e => (acc, some e)
      | .ok v2 => applyJsonDoc (setattr acc k v2) rest

/-- The observable outcome of one `train` call: the instance state afterwards,
the raised exception or returned value (`.ok none` is Python's implicit
`return None`), and the argument the dataset loader was invoked with, if it
was invoked. -/
structure TrainResult where
  state : State
  outcome : Except Err (Option String)
  loaderArg : Option String
  fastPath : Bool
deriving Repr, DecidableEq

/-- `PLECscore.train` (source lines 115-177).  `fit` abstracts
`self.model.fit` on the loaded descriptors: the regressor is external, and
fitting binds the variant's fitted attributes on the model object.  Metric
reporting to stderr (lines 159-170) has no effect on state or result and is
elided. -/
def train (fit : Model → JsonDoc) (s : State) (fs : Fs) (home_dir : Option String)
    (sf_pickle : Option String) (pdbbind_version : Int) (ignore_json : Bool) :
    TrainResult :=
  -- source line 127: `self.version in ['linear'] and isfile(json_path) and not ignore_json`
  if (s.config.version == "linear") && isfile fs (trainJsonPath s home_dir pdbbind_version)
      && !ignore_json then
    -- fast path (source lines 130-142): read the json document and setattr the
    -- attributes onto the model; the branch has no return statement
    match applyJsonDoc s.modelAttrs
        ((fs.lookup (trainJsonPath s home_dir pdbbind_version)).getD []) with
    | (attrs2, some e) =>
        { state := { s with modelAttrs := attrs2 }, outcome := .error e,
          loaderArg := none, fastPath := true }
    | (attrs2, none) =>
        { state := { s with modelAttrs := attrs2 }, outcome := .ok none,
          loaderArg := none, fastPath := true }
  else
    -- slow path (source lines 144-177): `_load_pdbbind_desc(desc_path, ...)`,
    -- fit the model, report metrics, and return `self.save(...)` on the
    -- explicit pickle path if given, else the default name
    { state := { s with modelAttrs := fit s.model },
      outcome := .ok (some (save (sf_pickle.getD (pickleName s.config.version
        s.config.depth_protein s.config.depth_ligand pdbbind_version s.config.size)))),
      loaderArg := some (pathJoinStr (resolveHomeDir home_dir)
        (descName s.config.depth_protein s.config.depth_ligand s.config.size)),
      fastPath := false }

/-- `gen_training_data` (source lines 70-86) delegates to the base class's
descriptor generation, which writes a CSV file; the method assigns no
instance fields, and the CSV is outside the JSON filesystem modelled here. -/
def gen_training_data (s : State) (_pdbbind_dir : String)
    (_home_dir : Option String) : State := s

/-- `getattr(self.model, attr_name)` on the fitted attributes. -/
def getattr (attrs : JsonDoc) (name : String) : Except Err PyVal :=
  match attrs.lookup name with
  | some v => .ok v
  | none => .error (.attributeError name)

/-- `isinstance(x, np.array)` as written at source lines 100 and 103: the
second argument of `isinstance` must be a type, and `np.array` is the numpy
array-building function (the array type is `np.ndarray`), so the call raises
TypeError whatever `x` is. -/
def isinstanceNpArray (_x : PyVal) : Except Err Bool :=
  .error .typeErrorIsinstanceNpArray

/-- `.tolist()` on a numpy array (or a python list of arrays, elementwise). -/
def tolist : PyVal → PyVal
  | .ndarray xs => .pyListNum xs
  | .pyListArr xss => .pyListList xss
  | v => v

/-- One iteration of `gen_json`'s conversion loop (source lines 97-105).  Both
isinstance tests raise, so the conversion code below them is unreachable; it
is kept to mirror the source. -/
def convertAttr (attrs : JsonDoc) (name : String) : Except Err (String × PyVal) := do
  let attr ← getattr attrs name
  let b1 ← isinstanceNpArray attr
  if b1 then
    .ok (name, tolist attr)
  else
    match attr with
    | .pyListArr (x :: _) => do
        let b2 ← isinstanceNpArray (.ndarray x)
        if b2 then .ok (name, tolist attr)
        else .ok (name, attr)
    | _ => .ok (name, attr)

/-- The full conversion loop building `out` in source order. -/
def convertAttrs (attrs : JsonDoc) : List String → Except Err JsonDoc
  | [] => .ok []
  | n :: rest => do
      let kv ← convertAttr attrs n
      let out ← convertAttrs attrs rest
      .ok (kv :: out)

/-- `os.path.join(home_dir, name)` at source line 107, where `home_dir` may
still be None: joining None raises TypeError. -/
def pathJoinOpt (home_dir : Option String) (name : String) : Except Err String :=
  match home_dir with
  | none => .error .typeErrorPathJoinNone
  | some h => .ok (pathJoinStr h name)

/-- The attribute list selected at source lines 90-94: by isinstance on the
model object.  The random-forest model matches neither branch, so
`attributes` stays unassigned and the loop header raises UnboundLocalError. -/
def attrsFor : Model → Except Err (List String)
  | .sgd _ => .ok ["coef_", "intercept_"]
  | .mlp _ => .ok ["loss_", "coefs_", "intercepts_", "n_iter_", "n_layers_",
                   "n_outputs_", "out_activation_"]
  | .rf _ => .error .unboundLocalAttributes

/-- `PLECscore.gen_json` (source lines 88-113).  Returns the raised exception
or the written path, together with the instance state and filesystem as left
behind.  Note the source calls `self.train(home_dir=home_dir)` without
forwarding its own `pdbbind_version`, so `train` runs with its default 2016
while the output path uses `gen_json`'s argument. -/
def gen_json (fit : Model → JsonDoc) (s : State) (fs : Fs) (home_dir : Option String)
    (pdbbind_version : Int) : Except Err String × State × Fs :=
  match (train fit s fs home_dir none 2016 false).outcome with
  | .error e => (.error e, (train fit s fs home_dir none 2016 false).state, fs)
  | .ok _ =>
    match attrsFor (train fit s fs home_dir none 2016 false).state.model with
    | .error e => (.error e, (train fit s fs home_dir none 2016 false).state, fs)
    | .ok attributes =>
      match convertAttrs (train fit s fs home_dir none 2016 false).state.modelAttrs
          attributes with
      | .error e => (.error e, (train fit s fs home_dir none 2016 false).state, fs)
      | .ok out =>
        match pathJoinOpt home_dir
            (jsonName (train fit s fs home_dir none 2016 false).state.config.version
              (train fit s fs home_dir none 2016 false).state.config.depth_protein
              (train fit s fs home_dir none 2016 false).state.config.depth_ligand
              (train fit s fs home_dir none 2016 false).state.config.size
              pdbbind_version) with
        | .error e => (.error e, (train fit s fs home_dir none 2016 false).state, fs)
        | .ok json_path =>
            (.ok json_path, (train fit s fs home_dir none 2016 false).state,
              (json_path, out) :: fs)

/-- Modelled from the spec: the `scorer` base class (not among the sources
here) binds no `version`, `depth_protein`, `depth_ligand` or `size` class
attribute either — the spec records the class-level lookup in `load` as "a
latent defect in the source".  So the names bound on the `PLECscore` class
object are the methods of the class body; instance fields such as `version`
are assigned only inside `__init__`, on instances. -/
def classAttrNames : List String :=
  ["__init__", "gen_training_data", "gen_json", "train", "load"]

/-- Attribute lookup on the class object, as performed by `self.version` inside
the classmethod `load` where `self` is the class. -/
def classGetattr (name : String) : Except Err String :=
  if classAttrNames.contains name then .ok name else .error (.attributeError name)

/-- The default filename expression of `load` (source lines 183-185):
`'PLEC%s_p%i_l%i_pdbbind%i_s%i.pickle' % (self.version, self.depth_protein,
self.depth_ligand, pdbbind_version, self.size)` with `self` the class object;
the format tuple is evaluated left to right, so `self.version` is looked up
first. -/
def loadDefaultFname (pdbbind_version : Int) : Except Err String := do
  let v ← classGetattr "version"
  let dp ← classGetattr "depth_protein"
  let dl ← classGetattr "depth_ligand"
  let sz ← classGetattr "size"
  .ok ("PLEC" ++ v ++ "_p" ++ dp ++ "_l" ++ dl ++ "_pdbbind" ++
    toString pdbbind_version ++ "_s" ++ sz ++ ".pickle")

/-- `PLECscore.load` (source lines 179-196).  `files` models the set of paths
for which `os.path.isfile` holds.  When an explicit filename is given the
method goes straight to `scorer.load(filename)`; otherwise it formats the
default name (which raises on the class-attribute lookup), would probe the
current directory and then beside the module, and would fall back to
training a fresh instance, whose slow-path `train` returns the default
pickle name for the default construction arguments. -/
def load (filename : Option String) (version : String) (pdbbind_version : Int)
    (files : List String) : Except Err String :=
  match filename with
  | some f => .ok f
  | none =>
      match loadDefaultFname pdbbind_version with
      | .error e => .error e
      | .ok fname =>
          match ([fname, pathJoinStr moduleDir fname]).find?
              (fun f => files.contains f) with
          | some f => .ok f
          | none => .ok (pickleName version 5 1 pdbbind_version 65536)

/-! ### Observation helpers and concrete instances used in the theorems -/

/-- The model of a successful construction. -/
def modelOf : Except String State → Option Model
  | .ok s => some s.model
  | .error _ => none

/-- The `n_jobs` argument the random-forest regressor was constructed with,
when construction succeeded and picked the random-forest branch. -/
def rfModelNJobs : Except String State → Option Int
  | .ok s =>
      match s.model with
      | .rf p => some p.n_jobs
      | _ => none
  | .error _ => none

/-- The parallelism hint stored in the configuration of a constructed instance. -/
def configNJobs : Except String State → Option Int
  | .ok s => some s.config.n_jobs
  | .error _ => none

/-- Whether the regressor is the random-forest one. -/
def isRf : Model → Bool
  | .rf _ => true
  | _ => false

/-- Whether a `gen_json` outcome is a success (a written path). -/
def exceptIsOk : Except Err String → Bool
  | .ok _ => true
  | .error _ => false

/-- The instance `PLECscore(version='linear')` with the constructor defaults. -/
def linearState : State :=
  { config := { protein := none, n_jobs := -1, version := "linear",
                depth_protein := 5, depth_ligand := 1, size := 65536 },
    descriptors := mkDescriptors (mkPlecFunc 1 5 65536) none 65536,
    model := .sgd { fit_intercept := false, loss := "huber", penalty := "elasticnet",
                    random_state := 0, verbose := 0, n_iter := 100,
                    alpha := 1/10000, epsilon := 1/10 },
    title := score_title "linear" 5 1,
    modelAttrs := [] }

/-- The instance `PLECscore(version='rf')` with the constructor defaults. -/
def rfState : State :=
  { config := { protein := none, n_jobs := -1, version := "rf",
                depth_protein := 5, depth_ligand := 1, size := 65536 },
    descriptors := mkDescriptors (mkPlecFunc 1 5 65536) none 65536,
    model := .rf { n_estimators := 100, n_jobs := -1, verbose := 0,
                   oob_score := true, random_state := 0 },
    title := score_title "rf" 5 1,
    modelAttrs := [] }

/-- A stand-in for the external `fit`: fitting an SGD regressor binds
`coef_` and `intercept_` on the model object; the concrete numbers do not
matter to any claim. -/
def linearFit : Model → JsonDoc := fun _ =>
  [("coef_", .ndarray [0]), ("intercept_", .ndarray [0])]

/-- A filesystem holding a linear parameter document at the deterministic
json path under home directory `home` for PDBBind 2016. -/
def fsWithLinearJson : Fs :=
  [(pathJoinStr "home" (jsonName "linear" 5 1 65536 2016),
    [("coef_", .pyListNum [0]), ("intercept_", .pyListNum [0])])]

/-- One lifecycle operation on an instance, with the arguments each method
takes: the operations a caller can interleave after construction. -/
inductive Op where
  | genData (pdbbind_dir : String) (home_dir : Option String)
  | doTrain (fs : Fs) (home_dir sf_pickle : Option String) (pdbbind_version : Int)
      (ignore_json : Bool)
  | doGenJson (fs : Fs) (home_dir : Option String) (pdbbind_version : Int)

/-- Run one operation and keep the instance state it leaves behind (for a
raising `gen_json`, the state as mutated up to the raise). -/
def applyOp (fit : Model → JsonDoc) (s : State) : Op → State
  | .genData d hdir => gen_training_data s d hdir
  | .doTrain fs hd sp pv ij => (train fit s fs hd sp pv ij).state
  | .doGenJson fs hd pv => (gen_json fit s fs hd pv).2.1

/-! ### Helper lemmas -/

/-- Sanity: the constructor with the linear defaults yields `linearState`. -/
theorem init_linear_eq : init none (-1) "linear" 5 1 65536 = .ok linearState := by
  rfl

/-- Sanity: the constructor with the rf defaults yields `rfState`. -/
theorem init_rf_eq : init none (-1) "rf" 5 1 65536 = .ok rfState := by
  rfl

/-- Neither branch of `train` assigns any of the configuration fields. -/
theorem train_state_config (fit : Model → JsonDoc) (s : State) (fs : Fs)
    (hd sp : Option String) (pv : Int) (ij : Bool) :
    (train fit s fs hd sp pv ij).state.config = s.config := by
  unfold train
  split
  · split <;> rfl
  · rfl

/-- Neither branch of `train` replaces the regressor object (the fast path
setattrs onto it; the slow path fits it). -/
theorem train_state_model (fit : Model → JsonDoc) (s : State) (fs : Fs)
    (hd sp : Option String) (pv : Int) (ij : Bool) :
    (train fit s fs hd sp pv ij).state.model = s.model := by
  unfold train
  split
  · split <;> rfl
  · rfl

/-- `gen_json` leaves the state that its inner `train` call produced: the
steps after the `train` call read the model but assign nothing. -/
theorem gen_json_state (fit : Model → JsonDoc) (s : State) (fs : Fs)
    (hd : Option String) (pv : Int) :
    (gen_json fit s fs hd pv).2.1 = (train fit s fs hd none 2016 false).state := by
  unfold gen_json
  split
  · rfl
  · split
    · rfl
    · split
      · rfl
      · split <;> rfl

/-- When the version is not `linear`, `train` takes the slow path. -/
theorem train_not_linear (fit : Model → JsonDoc) (s : State) (fs : Fs)
    (hd sp : Option String) (pv : Int) (ij : Bool)
    (h : (s.config.version == "linear") = false) :
    train fit s fs hd sp pv ij =
      { state := { s with modelAttrs := fit s.model },
        outcome := .ok (some (save (sp.getD (pickleName s.config.version
          s.config.depth_protein s.config.depth_ligand pv s.config.size)))),
        loaderArg := some (pathJoinStr (resolveHomeDir hd)
          (descName s.config.depth_protein s.config.depth_ligand s.config.size)),
        fastPath := false } := by
  unfold train
  rw [h]
  rfl

/-- The conversion loop body raises on every attribute: the lookup either
fails, or the following `isinstance(attr, np.array)` raises. -/
theorem convertAttr_isError (attrs : JsonDoc) (name : String) :
    ∃ e, convertAttr attrs name = .error e := by
  cases h : attrs.lookup name with
  | none =>
      exact ⟨.attributeError name, by unfold convertAttr getattr; rw [h]; rfl⟩
  | some v =>
      exact ⟨.typeErrorIsinstanceNpArray, by unfold convertAttr getattr; rw [h]; rfl⟩

/-- The conversion loop raises on every nonempty attribute list. -/
theorem convertAttrs_cons_isError (attrs : JsonDoc) (n : String) (rest : List String) :
    ∃ e, convertAttrs attrs (n :: rest) = .error e := by
  obtain ⟨e, he⟩ := convertAttr_isError attrs n
  exact ⟨e, by unfold convertAttrs; rw [he]; rfl⟩

/-- An attribute list `gen_json` manages to select is nonempty. -/
theorem attrsFor_ok_ne_nil (m : Model) (l : List String) (h : attrsFor m = .ok l) :
    l ≠ [] := by
  cases m with
  | sgd p =>
      simp only [attrsFor, Except.ok.injEq] at h
      rw [← h]
      simp
  | mlp p =>
      simp only [attrsFor, Except.ok.injEq] at h
      rw [← h]
      simp
  | rf p => simp [attrsFor] at h

/-- Every `gen_json` call raises before it reaches the path construction: the
attribute selection raises for the random forest, and the conversion loop
raises for the two variants with an attribute list.  No document is written. -/
theorem gen_json_always_raises (fit : Model → JsonDoc) (s : State) (fs : Fs)
    (hd : Option String) (pv : Int) :
    ∃ e, gen_json fit s fs hd pv =
      (.error e, (train fit s fs hd none 2016 false).state, fs) := by
  unfold gen_json
  split
  next e _ => exact ⟨e, rfl⟩
  next _ =>
    split
    next e _ => exact ⟨e, rfl⟩
    next l hl =>
      cases l with
      | nil => exact absurd rfl (attrsFor_ok_ne_nil _ _ hl)
      | cons n rest =>
          obtain ⟨e, he⟩ := convertAttrs_cons_isError
            (train fit s fs hd none 2016 false).state.modelAttrs n rest
          rw [he]
          exact ⟨e, rfl⟩

/-! ### Claim theorems -/

/-- C2: `train` takes the fast path exactly when the variant is `linear`, a
json document exists at the deterministic path, and `ignore_json` is false;
in every other case the dataset loader `_load_pdbbind_desc` is invoked. -/
theorem train_fast_path_condition (fit : Model → JsonDoc) (s : State) (fs : Fs)
    (hd sp : Option String) (pv : Int) (ij : Bool) :
    (train fit s fs hd sp pv ij).fastPath =
        ((s.config.version == "linear") && isfile fs (trainJsonPath s hd pv) && !ij)
    ∧ (train fit s fs hd sp pv ij).loaderArg.isSome =
        !(train fit s fs hd sp pv ij).fastPath := by
  unfold train
  split
  next h =>
    constructor
    · split <;> exact h.symm
    · split <;> rfl
  next h =>
    constructor
    · simp only [Bool.not_eq_true] at h
      exact h.symm
    · rfl

/-- C3 counterexample: a `train` call that takes the fast path (linear variant,
json document present, `ignore_json` false) returns Python `None`, not the
path of a persisted artifact. -/
theorem train_fast_path_returns_none :
    (train linearFit linearState fsWithLinearJson (some "home") none 2016 false).fastPath
        = true
    ∧ (train linearFit linearState fsWithLinearJson (some "home") none 2016 false).outcome
        = .ok none := by
  constructor <;> rfl

/-- C3 as amended: every `train` call that takes the slow path returns the
persisted artifact path, the explicit `sf_pickle` when given, else the
deterministic default filename; the fast path returns `None`. -/
theorem train_slow_path_returns_path (fit : Model → JsonDoc) (s : State) (fs : Fs)
    (hd sp : Option String) (pv : Int) (ij : Bool)
    (h : (train fit s fs hd sp pv ij).fastPath = false) :
    (train fit s fs hd sp pv ij).outcome =
      .ok (some (sp.getD (pickleName s.config.version s.config.depth_protein
        s.config.depth_ligand pv s.config.size))) := by
  unfold train
  split
  next hc =>
    exfalso
    unfold train at h
    rw [if_pos hc] at h
    split at h <;> simp at h
  next hc => rfl

/-- Witness for the C3 theorem: with an empty filesystem the slow path runs and
the returned value is the default pickle name. -/
theorem train_slow_path_returns_path_witness :
    (train linearFit linearState [] none none 2016 false).outcome =
      .ok (some (Option.getD none (pickleName "linear" 5 1 2016 65536))) :=
  train_slow_path_returns_path linearFit linearState [] none none 2016 false (by rfl)

/-- C4 counterexample: constructing with the invalid variant `svm` raises the
configuration error naming the value, yet the feature extractor has already
been constructed when the dispatch raises, refuting "neither a feature
extractor nor a model is constructed". -/
theorem init_invalid_builds_descriptors :
    (initTrace none "svm" 5 1 65536).modelResult =
        .error ("The version \"svm\" is not supported by PLECscore")
    ∧ (initTrace none "svm" 5 1 65536).descriptors ≠ none := by
  constructor
  · rfl
  · intro h
    simp [initTrace] at h

/-- C4 as amended: construction with a variant tag outside
{linear, nn, rf} fails with the configuration error naming the offending
value and no model is constructed, but the feature extractor is built before
the validation runs. -/
theorem init_invalid_version (protein : Option String) (version : String)
    (dp dl size : Nat) (h : version ∉ (["linear", "nn", "rf"] : List String)) :
    (initTrace protein version dp dl size).modelResult =
        .error ("The version \"" ++ version ++ "\" is not supported by PLECscore")
    ∧ (initTrace protein version dp dl size).descriptors =
        some (mkDescriptors (mkPlecFunc dl dp size) protein size) := by
  simp only [List.mem_cons, List.not_mem_nil, or_false, not_or] at h
  obtain ⟨h1, h2, h3⟩ := h
  constructor
  · simp only [initTrace, mkModel]
    rw [if_neg h1, if_neg h2, if_neg h3]
  · rfl

/-- Witness for the C4 theorem at the concrete invalid variant `svm`. -/
theorem init_invalid_version_witness :
    (initTrace none "svm" 5 1 65536).modelResult =
        .error ("The version \"" ++ "svm" ++ "\" is not supported by PLECscore")
    ∧ (initTrace none "svm" 5 1 65536).descriptors =
        some (mkDescriptors (mkPlecFunc 1 5 65536) none 65536) :=
  init_invalid_version none "svm" 5 1 65536 (by decide)

/-- C5 (code bug): `load` with no explicit path raises AttributeError while
formatting the default filename, because `self.version` is looked up on the
class object, which has no such attribute; it never probes the filesystem,
never trains, and never returns an adapter. -/
theorem load_none_raises (version : String) (pv : Int) (files : List String) :
    load none version pv files = .error (.attributeError "version") := by
  rfl

/-- C6: `gen_json` on a random-forest adapter fails — the attribute list is
left unbound for that branch and the loop header raises UnboundLocalError —
and no parameter document is written. -/
theorem gen_json_rf_unbound (fit : Model → JsonDoc) (s : State) (fs : Fs)
    (hd : Option String) (pv : Int)
    (h1 : s.config.version = "rf") (h2 : isRf s.model = true) :
    (gen_json fit s fs hd pv).1 = .error .unboundLocalAttributes
    ∧ (gen_json fit s fs hd pv).2.2 = fs := by
  have hcond : (s.config.version == "linear") = false := by rw [h1]; rfl
  have hslow := train_not_linear fit s fs hd none 2016 false hcond
  cases hm : s.model with
  | sgd p => rw [hm] at h2; simp [isRf] at h2
  | mlp p => rw [hm] at h2; simp [isRf] at h2
  | rf p =>
      unfold gen_json
      rw [hslow]
      simp [attrsFor, hm]

/-- Witness for the C6 theorem: the concrete rf instance with default
construction arguments. -/
theorem gen_json_rf_unbound_witness :
    (gen_json linearFit rfState [] none 2016).1 = .error .unboundLocalAttributes
    ∧ (gen_json linearFit rfState [] none 2016).2.2 = ([] : Fs) :=
  gen_json_rf_unbound linearFit rfState [] none 2016 rfl rfl

/-- C7 counterexample: constructed with parallelism hint 1, the random-forest
regressor still carries `n_jobs = -1`, so the hint supplied to the
constructor does not determine the training fan-out. -/
theorem rf_njobs_not_from_hint :
    rfModelNJobs (init none 1 "rf" 5 1 65536) ≠ some 1 := by
  decide

/-- C7 as amended: the random-forest regressor is always constructed with the
hard-coded `n_jobs = -1` (all cores), whatever parallelism hint was supplied;
the hint is stored in the configuration but not forwarded. -/
theorem rf_njobs_always_minus_one (protein : Option String) (n_jobs : Int)
    (dp dl size : Nat) :
    rfModelNJobs (init protein n_jobs "rf" dp dl size) = some (-1)
    ∧ configNJobs (init protein n_jobs "rf" dp dl size) = some n_jobs := by
  constructor <;> rfl

/-- C8: for the linear variant the constructor builds the SGD regressor with
exactly the documented fixed hyperparameters: no intercept fitting, huber
loss with width 1/10, elastic-net regularization with strength 1/10000,
100 passes, and random seed 0. -/
theorem linear_hyperparameters (protein : Option String) (n_jobs : Int)
    (dp dl size : Nat) :
    modelOf (init protein n_jobs "linear" dp dl size) =
      some (.sgd { fit_intercept := false, loss := "huber", penalty := "elasticnet",
                   random_state := 0, verbose := 0, n_iter := 100,
                   alpha := 1/10000, epsilon := 1/10 }) := by
  rfl

/-- C9: for every instance and every sequence of `gen_training_data`, `train`
and `gen_json` operations, the six configuration fields set at construction
are never mutated. -/
theorem config_immutable (fit : Model → JsonDoc) (s : State) (ops : List Op) :
    (List.foldl (applyOp fit) s ops).config = s.config := by
  induction ops generalizing s with
  | nil => rfl
  | cons op rest ih =>
      have h : (applyOp fit s op).config = s.config := by
        cases op with
        | genData d hdir => rfl
        | doTrain fs hd sp pv ij => exact train_state_config fit s fs hd sp pv ij
        | doGenJson fs hd pv =>
            rw [show (applyOp fit s (Op.doGenJson fs hd pv)) =
                (gen_json fit s fs hd pv).2.1 from rfl,
              gen_json_state fit s fs hd pv]
            exact train_state_config fit s fs hd none 2016 false
      calc (List.foldl (applyOp fit) s (op :: rest)).config
          = (List.foldl (applyOp fit) (applyOp fit s op) rest).config := rfl
        _ = (applyOp fit s op).config := ih (applyOp fit s op)
        _ = s.config := h

/-- C10 counterexample: with `home_dir` omitted, `gen_json` on a trained linear
adapter raises the isinstance TypeError inside the conversion loop, not the
claimed TypeError from constructing the output path with a None home
directory. -/
theorem gen_json_none_home_error_site :
    (gen_json linearFit linearState [] none 2016).1 =
        .error .typeErrorIsinstanceNpArray
    ∧ Err.typeErrorIsinstanceNpArray ≠ Err.typeErrorPathJoinNone := by
  constructor
  · rfl
  · decide

/-- C10 as amended: `gen_json` with `home_dir` omitted always fails before
writing any document, but the failure fires in the attribute selection or the
conversion loop; the path construction from the still-None home directory is
never reached, though `os.path.join(None, _)` would itself raise if it were. -/
theorem gen_json_none_home_fails (fit : Model → JsonDoc) (s : State) (fs : Fs)
    (pv : Int) :
    exceptIsOk (gen_json fit s fs none pv).1 = false
    ∧ (gen_json fit s fs none pv).2.2 = fs
    ∧ ∀ name, pathJoinOpt none name = .error .typeErrorPathJoinNone := by
  obtain ⟨e, he⟩ := gen_json_always_raises fit s fs none pv
  rw [he]
  exact ⟨rfl, rfl, fun _ => rfl⟩

/-- C1 (code bug): `gen_json` on the linear adapter never writes a parameter
document: every export attempt raises TypeError at
`isinstance(attr, np.array)` — `np.array` is the array-building function,
not the array type — so the documented export-then-reload round trip can
never take place. -/
theorem gen_json_linear_raises :
    (gen_json linearFit linearState [] (some "home") 2016).1 =
        .error .typeErrorIsinstanceNpArray
    ∧ (gen_json linearFit linearState [] (some "home") 2016).2.2 = ([] : Fs) := by
  constructor <;> rfl

end PLECEmbed
